import Mathlib

/-!
Shallow embedding of the Vulkan memory allocator core of StrawberryDan/graphics
(`src/Strawberry/Vulkan/Memory/Allocator.hpp` / `Allocator.cpp`).

Modelling conventions:
* `VkDeviceMemory`, `VkDevice` and host addresses are `Nat` (0 plays `VK_NULL_HANDLE`).
* `Core::ReflexivePointer<T>` (a liveness-checked weak pointer) is `Option T`;
  dereferencing `none` is the fail-fast programmer error `ProgError.staleReference`.
* `Core::Assert` / `Core::AssertImplication` failures are `ProgError.assertFailed`;
  `Core::Unreachable()` aborts are the `none` of an outer `Option`.
* The native layer (`vkAllocateMemory`, `vkMapMemory`, `vkFlushMappedMemoryRanges`,
  `std::memcpy`) is an oracle: `vkAllocateMemory`'s result is passed in as a
  `VkResult` plus the handle it would produce, `vkMapMemory` is a pure function
  from memory handles to host addresses (the code asserts it succeeds), and the
  observable side effects (`memcpy`, flush ranges) are returned as a list of
  `NativeCall` events, so that call counts and ranges can be inspected.
* `VkMemoryPropertyFlags` is `Nat`, tested with `Nat.land` exactly as the C++
  tests bits with `&`.
-/

namespace Vulkan

/-- Subset of `VkResult` relevant to `MemoryPool::Allocate`: success, the two
memory-exhaustion errors it matches on, and a catch-all for every other code. -/
inductive VkResult where
  | VK_SUCCESS
  | VK_ERROR_OUT_OF_HOST_MEMORY
  | VK_ERROR_OUT_OF_DEVICE_MEMORY
  | other (code : Int)
deriving DecidableEq, Repr

/-- `VK_MEMORY_PROPERTY_DEVICE_LOCAL_BIT` -/
def VK_MEMORY_PROPERTY_DEVICE_LOCAL_BIT : Nat := 1
/-- `VK_MEMORY_PROPERTY_HOST_VISIBLE_BIT` -/
def VK_MEMORY_PROPERTY_HOST_VISIBLE_BIT : Nat := 2
/-- `VK_MEMORY_PROPERTY_HOST_COHERENT_BIT` -/
def VK_MEMORY_PROPERTY_HOST_COHERENT_BIT : Nat := 4

/-- Fail-fast programmer-error outcomes: a `Core::Assert`-family failure, or a
dereference of a dead `Core::ReflexivePointer`. -/
inductive ProgError where
  | assertFailed
  | staleReference
deriving DecidableEq, Repr

/-- `Core::AssertImplication(p, q)`: fails fast unless `p → q`. -/
def assertImplication (p q : Bool) : Except ProgError Unit :=
  if p && !q then .error .assertFailed else .ok ()

/-- The external `Device`: just its native handle (`VkDevice`). -/
structure Device where
  handle : Nat
deriving DecidableEq, Repr

/-- The external `PhysicalDevice`: the per-memory-type property flags exposed by
`GetMemoryProperties().memoryTypes[i].propertyFlags` (`VK_MAX_MEMORY_TYPES` slots;
out-of-range reads modelled as flags 0). -/
structure PhysicalDevice where
  memoryTypes : List Nat
deriving DecidableEq, Repr

/-- The nested alternative tags declared inside `AllocationError`
(`struct OutOfMemory {}; struct MemoryTypeUnavailable {}; struct RequestTooLarge {};`). -/
inductive AllocationError.Alt where
  | OutOfMemory
  | MemoryTypeUnavailable
  | RequestTooLarge
deriving DecidableEq, Repr

/-- `AllocationError::Info = Core::Variant<OutOfMemory, MemoryTypeUnavailable>`:
the variant as declared in the source holds only these two alternatives. -/
inductive AllocationError.Info where
  | OutOfMemory
  | MemoryTypeUnavailable
deriving DecidableEq, Repr

/-- Which declared alternative a stored `Info` value holds. -/
def AllocationError.Info.alt : AllocationError.Info → AllocationError.Alt
  | .OutOfMemory => .OutOfMemory
  | .MemoryTypeUnavailable => .MemoryTypeUnavailable

/-- `AllocationError`: wraps the `Info` variant. -/
structure AllocationError where
  mInfo : AllocationError.Info
deriving DecidableEq, Repr

/-- `AllocationError::IsType<T>()`: whether the stored variant holds alternative `t`. -/
def AllocationError.IsType (e : AllocationError) (t : AllocationError.Alt) : Bool :=
  e.mInfo.alt == t

/-- Observable native side effects: a `std::memcpy` to a host address, or a
`vkFlushMappedMemoryRanges` call with its memory handle, offset and size. -/
inductive NativeCall where
  | memcpy (dst : Nat) (bytes : List UInt8)
  | flush (memory : Nat) (offset : Nat) (size : Option Nat)
deriving DecidableEq, Repr

/-- `VK_WHOLE_SIZE` as a flush size. -/
def wholeSize : Option Nat := none

/-- Whether a native-call trace contains any flush. -/
def containsFlush (calls : List NativeCall) : Bool :=
  calls.any fun c => match c with
    | .flush _ _ _ => true
    | _ => false

/-- `MemoryPool`: owning device/physical-device references, memory-type index,
native memory handle, size, and the lazily cached host-mapped base address. -/
structure MemoryPool where
  mDevice : Option Device := none
  mPhysicalDevice : Option PhysicalDevice := none
  mMemoryTypeIndex : Nat := 0
  mMemory : Nat := 0
  mSize : Nat := 0
  mMappedAddress : Option Nat := none
deriving DecidableEq, Repr

/-- `MemoryPool::Size()` -/
def MemoryPool.Size (pool : MemoryPool) : Nat := pool.mSize

/-- `MemoryPool::MemoryTypeIndex()` -/
def MemoryPool.MemoryTypeIndex (pool : MemoryPool) : Nat := pool.mMemoryTypeIndex

/-- `MemoryPool::Properties()`:
`mPhysicalDevice->GetMemoryProperties().memoryTypes[mMemoryTypeIndex].propertyFlags`.
Dereferences the physical-device weak pointer. -/
def MemoryPool.Properties (pool : MemoryPool) : Except ProgError Nat :=
  match pool.mPhysicalDevice with
  | none => .error .staleReference
  | some pd => .ok (pd.memoryTypes.getD pool.mMemoryTypeIndex 0)

/-- `MemoryPool::Allocate(device, physicalDevice, memoryTypeIndex, size)`.
The native `vkAllocateMemory` outcome is supplied as `allocationResult` together
with the handle `deviceMemory` it would write. `none` models the
`Core::Unreachable()` abort on any other `VkResult`. -/
def MemoryPool.Allocate (device : Device) (physicalDevice : PhysicalDevice)
    (memoryTypeIndex : Nat) (size : Nat)
    (allocationResult : VkResult) (deviceMemory : Nat) :
    Option (Except AllocationError MemoryPool) :=
  match allocationResult with
  | .VK_ERROR_OUT_OF_HOST_MEMORY => some (.error ⟨.OutOfMemory⟩)
  | .VK_ERROR_OUT_OF_DEVICE_MEMORY => some (.error ⟨.OutOfMemory⟩)
  | .VK_SUCCESS => some (.ok
      { mDevice := some device
        mPhysicalDevice := some physicalDevice
        mMemoryTypeIndex := memoryTypeIndex
        mMemory := deviceMemory
        mSize := size
        mMappedAddress := none })
  | .other _ => none

/-- `AllocationRequest`: size, alignment, acceptable memory-type bitmask and an
optional target device. -/
structure AllocationRequest where
  device : Option Device
  size : Nat
  alignment : Nat
  memoryTypeMask : Nat
deriving DecidableEq, Repr

/-- The `AllocationRequest(const Device&, size_t, size_t)` constructor: sets
device, size and alignment; `memoryTypeMask` keeps its member initializer
`0xFFFFFFFF`. -/
def AllocationRequest.ofDeviceSizeAlignment (device : Device) (size alignment : Nat) :
    AllocationRequest :=
  { device := some device, size := size, alignment := alignment
    memoryTypeMask := 0xFFFFFFFF }

/-- `VkMemoryRequirements` -/
structure VkMemoryRequirements where
  size : Nat
  alignment : Nat
  memoryTypeBits : Nat
deriving DecidableEq, Repr

/-- The `AllocationRequest(VkMemoryRequirements&)` constructor: copies size,
alignment and type bits; the `device` member keeps its `nullptr` initializer. -/
def AllocationRequest.ofRequirements (req : VkMemoryRequirements) : AllocationRequest :=
  { device := none, size := req.size, alignment := req.alignment
    memoryTypeMask := req.memoryTypeBits }

/-- `MemoryPool::GetMappedAddress()`: returns the cached mapping if present; on
first call asserts host-visibility (via `Properties()`, which dereferences the
physical-device pointer), performs the native `vkMapMemory` (dereferencing the
device pointer) and caches the result. Returns the address, the updated pool,
and the number of native map calls performed (0 or 1). `mapFn` is the native
oracle giving the host address `vkMapMemory` yields for a memory handle (the
code asserts the native call succeeds). -/
def MemoryPool.GetMappedAddress (pool : MemoryPool) (mapFn : Nat → Nat) :
    Except ProgError (Nat × MemoryPool × Nat) :=
  match pool.mMappedAddress with
  | some addr => .ok (addr, pool, 0)
  | none =>
    match pool.Properties with
    | .error e => .error e
    | .ok props =>
      if props.land VK_MEMORY_PROPERTY_HOST_VISIBLE_BIT ≠ 0 then
        match pool.mDevice with
        | none => .error .staleReference
        | some _ =>
          .ok (mapFn pool.mMemory, { pool with mMappedAddress := some (mapFn pool.mMemory) }, 1)
      else .error .assertFailed

/-- `MemoryPool::Flush()`: issues `vkFlushMappedMemoryRanges` on the whole pool
(offset 0, `VK_WHOLE_SIZE`), dereferencing the device pointer. -/
def MemoryPool.Flush (pool : MemoryPool) : Except ProgError NativeCall :=
  match pool.mDevice with
  | none => .error .staleReference
  | some _ => .ok (.flush pool.mMemory 0 wholeSize)

/-- `MemoryPool::Overwrite(bytes)`: asserts `bytes.Size() <= Size()`, copies the
bytes to the mapped base address, then calls `Flush()` when the memory type
lacks `VK_MEMORY_PROPERTY_HOST_COHERENT_BIT`. Returns the updated pool and the
native-call trace. -/
def MemoryPool.Overwrite (pool : MemoryPool) (mapFn : Nat → Nat) (bytes : List UInt8) :
    Except ProgError (MemoryPool × List NativeCall) :=
  if bytes.length ≤ pool.Size then
    match pool.GetMappedAddress mapFn with
    | .error e => .error e
    | .ok (addr, pool2, _) =>
      match pool2.Properties with
      | .error e => .error e
      | .ok props =>
        if props.land VK_MEMORY_PROPERTY_HOST_COHERENT_BIT = 0 then
          match pool2.Flush with
          | .error e => .error e
          | .ok f => .ok (pool2, [.memcpy addr bytes, f])
        else .ok (pool2, [.memcpy addr bytes])
  else .error .assertFailed

/-- `Allocation`: device handle, allocator back-reference (modelled by its
liveness only, since `Allocator` is an abstract interface), pool back-reference,
offset and size. Field defaults are the member initializers of the class. -/
structure Allocation where
  mDevice : Nat := 0
  mAllocator : Bool := false
  mRawAllocation : Option MemoryPool := none
  mOffset : Nat := 0
  mSize : Nat := 0
deriving DecidableEq, Repr

/-- The `Allocation()` default constructor: all members keep their
initializers (null device, null allocator and pool references, offset 0,
size 0). -/
def Allocation.defaultCtor : Allocation := {}

/-- The `Allocation(Allocator&, MemoryPool&, size_t, size_t)` constructor as
defined in the translation unit: binds the allocator and pool back-references
and stores offset and size; `mDevice` keeps its member initializer. -/
def Allocation.ctor (pool : MemoryPool) (offset size : Nat) : Allocation :=
  { mDevice := 0, mAllocator := true, mRawAllocation := some pool
    mOffset := offset, mSize := size }

/-- `MemoryPool::AllocateView(allocator, offset, size)`: returns
`{allocator, *this, offset, size}` — the view constructor call, with no bounds
check of any kind. -/
def MemoryPool.AllocateView (pool : MemoryPool) (offset size : Nat) : Allocation :=
  Allocation.ctor pool offset size

/-- `Allocation::Offset()` -/
def Allocation.Offset (a : Allocation) : Nat := a.mOffset

/-- `Allocation::Size()` -/
def Allocation.Size (a : Allocation) : Nat := a.mSize

/-- `Allocation::operator bool()`: runs
`Core::AssertImplication(!mAllocator, mRawAllocation)` — note the consequent is
the pool reference itself, not its negation — then converts the allocator
pointer to `Bool`. -/
def Allocation.toBool (a : Allocation) : Except ProgError Bool :=
  match assertImplication (!a.mAllocator) a.mRawAllocation.isSome with
  | .error e => .error e
  | .ok _ => .ok a.mAllocator

/-- `Allocation::~Allocation()`: runs
`Core::AssertImplication(!mAllocator, !mRawAllocation)`, then, if the allocator
reference is live, calls `mAllocator->Free(std::move(*this))`. Returns the
number of `Allocator::Free` calls fired (0 or 1). -/
def Allocation.destructor (a : Allocation) : Except ProgError Nat :=
  match assertImplication (!a.mAllocator) (!a.mRawAllocation.isSome) with
  | .error e => .error e
  | .ok _ => .ok (if a.mAllocator then 1 else 0)

/-- The `Allocation(Allocation&&)` move constructor: moves both reflexive
pointers (a moved-from `Core::ReflexivePointer` becomes null) and copies offset
and size; `mDevice` is absent from the initializer list, so the new object gets
the member initializer. Returns (new holder, moved-from source). -/
def Allocation.moveConstruct (other : Allocation) : Allocation × Allocation :=
  ({ mDevice := 0, mAllocator := other.mAllocator
     mRawAllocation := other.mRawAllocation
     mOffset := other.mOffset, mSize := other.mSize },
   { other with mAllocator := false, mRawAllocation := none })

/-- Move an allocation through `n` successive move constructions, running the
destructor of each moved-from husk along the way and of the final holder at the
end; returns the total number of `Allocator::Free` calls fired across all the
destructors. -/
def Allocation.moveChainFrees : Nat → Allocation → Except ProgError Nat
  | 0, a => a.destructor
  | n + 1, a =>
    match (Allocation.moveConstruct a).2.destructor with
    | .error e => .error e
    | .ok k =>
      match Allocation.moveChainFrees n (Allocation.moveConstruct a).1 with
      | .error e => .error e
      | .ok m => .ok (k + m)

/-- `Allocation::GetMappedAddress()`: `mRawAllocation->GetMappedAddress() + mOffset`,
dereferencing the pool weak pointer. Returns the address, the allocation with
the pool's updated mapping cache, and the native map-call count. -/
def Allocation.GetMappedAddress (a : Allocation) (mapFn : Nat → Nat) :
    Except ProgError (Nat × Allocation × Nat) :=
  match a.mRawAllocation with
  | none => .error .staleReference
  | some pool =>
    match pool.GetMappedAddress mapFn with
    | .error e => .error e
    | .ok (base, pool2, n) =>
      .ok (base + a.mOffset, { a with mRawAllocation := some pool2 }, n)

/-- `Allocation::Overwrite(bytes)`: asserts `bytes.Size() <= Size()` and copies
the bytes to `GetMappedAddress()` (the pool's base plus the allocation's
offset). It performs no flush. Returns the updated allocation and the
native-call trace. -/
def Allocation.Overwrite (a : Allocation) (mapFn : Nat → Nat) (bytes : List UInt8) :
    Except ProgError (Allocation × List NativeCall) :=
  if bytes.length ≤ a.Size then
    match a.GetMappedAddress mapFn with
    | .error e => .error e
    | .ok (addr, a2, _) => .ok (a2, [.memcpy addr bytes])
  else .error .assertFailed

/-- Test fixture: a physical device whose memory type 0 is host-visible but not
host-coherent. -/
def nonCoherentPhysicalDevice : PhysicalDevice :=
  ⟨[VK_MEMORY_PROPERTY_HOST_VISIBLE_BIT]⟩

/-- Test fixture: a 256-byte pool of the non-coherent host-visible type. -/
def nonCoherentPool : MemoryPool :=
  { mDevice := some ⟨1⟩, mPhysicalDevice := some nonCoherentPhysicalDevice
    mMemoryTypeIndex := 0, mMemory := 7, mSize := 256, mMappedAddress := none }

/-- Test fixture: a physical device whose memory type 0 is host-visible and
host-coherent. -/
def coherentPhysicalDevice : PhysicalDevice :=
  ⟨[VK_MEMORY_PROPERTY_HOST_VISIBLE_BIT + VK_MEMORY_PROPERTY_HOST_COHERENT_BIT]⟩

/-- Test fixture: a 256-byte pool of the coherent host-visible type. -/
def coherentPool : MemoryPool :=
  { mDevice := some ⟨1⟩, mPhysicalDevice := some coherentPhysicalDevice
    mMemoryTypeIndex := 0, mMemory := 9, mSize := 256, mMappedAddress := none }

/-- Test fixture: a 4-byte pool. -/
def smallPool : MemoryPool :=
  { mDevice := some ⟨1⟩, mPhysicalDevice := some nonCoherentPhysicalDevice
    mMemoryTypeIndex := 0, mMemory := 3, mSize := 4, mMappedAddress := none }

/-- Test fixture: the native map oracle mapping every memory handle to host
address 4096. -/
def testMap : Nat → Nat := fun _ => 4096

/-- Test fixture: 64 bytes of `0xAB`. -/
def testBytes64 : List UInt8 := List.replicate 64 0xAB

/-- Test fixture: the non-coherent pool after its first mapping through
`testMap`. -/
def mappedNonCoherentPool : MemoryPool :=
  { nonCoherentPool with mMappedAddress := some 4096 }

/-- Test fixture: the coherent pool after its first mapping through `testMap`. -/
def mappedCoherentPool : MemoryPool :=
  { coherentPool with mMappedAddress := some 4096 }

end Vulkan

namespace Vulkan

/-- C1. The spec calls `AllocationError` a closed variant of the three
alternatives `{OutOfMemory, MemoryTypeUnavailable, RequestTooLarge}` with
`RequestTooLarge` constructible and returnable. In the source the nested
`struct RequestTooLarge {}` is declared but the stored variant is
`Core::Variant<OutOfMemory, MemoryTypeUnavailable>`, so no `AllocationError`
value can hold the `RequestTooLarge` alternative: for every value,
`IsType<RequestTooLarge>` is false. -/
theorem allocationError_requestTooLarge_not_representable
    (e : AllocationError) : e.IsType .RequestTooLarge = false := by
  cases e with
  | mk info => cases info <;> rfl

/-- C5. `MemoryPool::Allocate` returns the `OutOfMemory` error when the native
call fails with host- or device-memory exhaustion, aborts
(`Core::Unreachable()`, modelled as `none`) on any other native failure, and on
native success returns a pool carrying the requested size and memory-type
index. -/
theorem memoryPool_allocate_classification
    (device : Device) (physicalDevice : PhysicalDevice)
    (memoryTypeIndex size deviceMemory : Nat) :
    MemoryPool.Allocate device physicalDevice memoryTypeIndex size
        .VK_ERROR_OUT_OF_HOST_MEMORY deviceMemory
      = some (.error ⟨.OutOfMemory⟩) ∧
    MemoryPool.Allocate device physicalDevice memoryTypeIndex size
        .VK_ERROR_OUT_OF_DEVICE_MEMORY deviceMemory
      = some (.error ⟨.OutOfMemory⟩) ∧
    (∀ code : Int,
      MemoryPool.Allocate device physicalDevice memoryTypeIndex size
        (.other code) deviceMemory = none) ∧
    (∃ pool : MemoryPool,
      MemoryPool.Allocate device physicalDevice memoryTypeIndex size
        .VK_SUCCESS deviceMemory = some (.ok pool) ∧
      pool.Size = size ∧ pool.MemoryTypeIndex = memoryTypeIndex ∧
      pool.mMemory = deviceMemory) := by
  refine ⟨rfl, rfl, fun _ => rfl, ⟨_, rfl, rfl, rfl, rfl⟩⟩

/-- C10. An `AllocationRequest` built from only a device, size and alignment
has its memory-type bitmask defaulted to `0xFFFFFFFF`: every one of the 32
memory-type bits is set, so every memory type is declared acceptable. -/
theorem allocationRequest_default_mask_all_ones
    (device : Device) (size alignment : Nat) :
    (AllocationRequest.ofDeviceSizeAlignment device size alignment).memoryTypeMask
        = 0xFFFFFFFF ∧
    (∀ i : Nat, i < 32 →
      (AllocationRequest.ofDeviceSizeAlignment device size alignment).memoryTypeMask.testBit i
        = true) := by
  constructor
  · rfl
  · intro i hi
    have hmask : (AllocationRequest.ofDeviceSizeAlignment device size alignment).memoryTypeMask
        = 2 ^ 32 - 1 := by norm_num [AllocationRequest.ofDeviceSizeAlignment]
    rw [hmask, Nat.testBit_two_pow_sub_one]
    exact decide_eq_true hi

/-- Witness for C10 at a concrete input: device handle 1, size 64, alignment 16,
bit 7. -/
theorem allocationRequest_default_mask_all_ones_witness :
    (AllocationRequest.ofDeviceSizeAlignment ⟨1⟩ 64 16).memoryTypeMask.testBit 7 = true :=
  (allocationRequest_default_mask_all_ones ⟨1⟩ 64 16).2 7 (by norm_num)

/-- C3. The spec says an `Allocation` holding neither back-reference is "empty"
and its boolean conversion evaluates to false. In the source,
`operator bool` asserts `AssertImplication(!mAllocator, mRawAllocation)` — a
null allocator is asserted to imply a *non-null* pool — so converting a
default-constructed (empty) `Allocation` to `bool` trips the assertion and
fails fast instead of returning false. The destructor of the very same value
asserts the opposite implication, `AssertImplication(!mAllocator,
!mRawAllocation)`, and passes, exhibiting the internal contradiction. -/
theorem allocation_empty_toBool_asserts :
    Allocation.defaultCtor.toBool = .error .assertFailed ∧
    Allocation.defaultCtor.destructor = .ok 0 :=
  ⟨rfl, rfl⟩

/-- C4 counterexample: a pool of size 4 accepts `AllocateView` at offset 10 and
size 10: no fail-fast occurs, a bound view is produced, and its
`offset + size = 20` exceeds the pool size 4. -/
theorem allocateView_out_of_bounds_counterexample :
    (smallPool.AllocateView 10 10).Offset + (smallPool.AllocateView 10 10).Size
        > smallPool.Size ∧
    (smallPool.AllocateView 10 10).mAllocator = true ∧
    (smallPool.AllocateView 10 10).mRawAllocation = some smallPool := by
  refine ⟨?_, rfl, rfl⟩
  decide

/-- C4 amended: `MemoryPool::AllocateView(allocator, offset, size)` performs no
bounds check: for every offset and size — also when `offset + size` exceeds
`pool.Size()` — it unconditionally returns a view bound to the pool carrying
exactly that offset and size. -/
theorem allocateView_unconditional (pool : MemoryPool) (offset size : Nat) :
    (pool.AllocateView offset size).Offset = offset ∧
    (pool.AllocateView offset size).Size = size ∧
    (pool.AllocateView offset size).mAllocator = true ∧
    (pool.AllocateView offset size).mRawAllocation = some pool :=
  ⟨rfl, rfl, rfl, rfl⟩

/-- C6. For an `Allocation` holding a live allocator reference, moving it any
number of times and then destroying every holder fires the release callback
(`Allocator::Free`) exactly once in total — from the destructor of the final
holder — and the destructor of a moved-from `Allocation` never fires it. -/
theorem allocation_single_release (n : Nat) (a : Allocation)
    (h : a.mAllocator = true) :
    Allocation.moveChainFrees n a = .ok 1 ∧
    (Allocation.moveConstruct a).2.destructor = .ok 0 := by
  constructor
  · induction n generalizing a with
    | zero =>
      simp [Allocation.moveChainFrees, Allocation.destructor, assertImplication, h]
    | succ n ih =>
      have hfresh : (Allocation.moveConstruct a).1.mAllocator = true := h
      have hm : Allocation.moveChainFrees n (Allocation.moveConstruct a).1 = .ok 1 :=
        ih _ hfresh
      have hd : (Allocation.moveConstruct a).2.destructor = .ok 0 := by
        simp [Allocation.moveConstruct, Allocation.destructor, assertImplication]
      show (match (Allocation.moveConstruct a).2.destructor with
        | Except.error e => (Except.error e : Except ProgError Nat)
        | Except.ok k =>
          match Allocation.moveChainFrees n (Allocation.moveConstruct a).1 with
          | Except.error e => Except.error e
          | Except.ok m => Except.ok (k + m)) = Except.ok 1
      rw [hd, hm]
  · simp [Allocation.moveConstruct, Allocation.destructor, assertImplication]

/-- Witness for C6: a bound view of the test pool, moved three times, frees
exactly once. -/
theorem allocation_single_release_witness :
    Allocation.moveChainFrees 3 (nonCoherentPool.AllocateView 0 64) = .ok 1 :=
  (allocation_single_release 3 (nonCoherentPool.AllocateView 0 64) rfl).1

/-- C7. `MemoryPool::GetMappedAddress` is idempotent: whenever a call succeeds
with address `addr`, updated pool `p2` and native map-call count `n`, the next
call on `p2` returns the identical address, leaves the pool unchanged and
performs no second native map; moreover on a pool with no cached mapping the
call maps exactly once, and only after the host-visibility assertion on
`Properties()` held. -/
theorem memoryPool_getMappedAddress_idempotent
    (pool : MemoryPool) (mapFn : Nat → Nat) (addr : Nat) (p2 : MemoryPool) (n : Nat)
    (h : pool.GetMappedAddress mapFn = .ok (addr, p2, n)) :
    p2.GetMappedAddress mapFn = .ok (addr, p2, 0) ∧ n ≤ 1 ∧
    (pool.mMappedAddress = none →
      n = 1 ∧ ∃ props, pool.Properties = .ok props ∧
        props.land VK_MEMORY_PROPERTY_HOST_VISIBLE_BIT ≠ 0) := by
  cases hc : pool.mMappedAddress with
  | some cached =>
    simp only [MemoryPool.GetMappedAddress, hc, Except.ok.injEq, Prod.mk.injEq] at h
    obtain ⟨h1, h2, h3⟩ := h
    subst h1; subst h2; subst h3
    exact ⟨by simp [MemoryPool.GetMappedAddress, hc], Nat.zero_le 1, fun hnone => by simp_all⟩
  | none =>
    cases hp : pool.Properties with
    | error e =>
      simp only [MemoryPool.GetMappedAddress, hc, hp] at h
      exact absurd h (by simp)
    | ok props =>
      by_cases hv : props.land VK_MEMORY_PROPERTY_HOST_VISIBLE_BIT ≠ 0
      · cases hd : pool.mDevice with
        | none =>
          simp only [MemoryPool.GetMappedAddress, hc, hp, if_pos hv, hd] at h
          exact absurd h (by simp)
        | some dev =>
          simp only [MemoryPool.GetMappedAddress, hc, hp, if_pos hv, hd,
            Except.ok.injEq, Prod.mk.injEq] at h
          obtain ⟨h1, h2, h3⟩ := h
          subst h1; subst h3
          refine ⟨?_, le_refl 1, fun _ => ⟨rfl, props, rfl, hv⟩⟩
          rw [← h2]
          simp [MemoryPool.GetMappedAddress]
      · simp only [MemoryPool.GetMappedAddress, hc, hp, if_neg hv] at h
        exact absurd h (by simp)

/-- Witness for C7: a first call on the unmapped test pool maps to 4096; the
conclusion instantiates to the idempotence of the second call. -/
theorem memoryPool_getMappedAddress_idempotent_witness :
    ({ nonCoherentPool with mMappedAddress := some 4096 } : MemoryPool).GetMappedAddress testMap
        = .ok (4096, { nonCoherentPool with mMappedAddress := some 4096 }, 0) ∧
    (1 : Nat) ≤ 1 ∧
    (nonCoherentPool.mMappedAddress = none →
      (1 : Nat) = 1 ∧ ∃ props, nonCoherentPool.Properties = .ok props ∧
        props.land VK_MEMORY_PROPERTY_HOST_VISIBLE_BIT ≠ 0) :=
  memoryPool_getMappedAddress_idempotent nonCoherentPool testMap 4096
    { nonCoherentPool with mMappedAddress := some 4096 } 1 (by rfl)

/-- C8. `MemoryPool::Overwrite(bytes)` fails fast when `bytes.length` exceeds
the pool size; a successful call copies the bytes to the pool's mapped base
address (offset 0 into the pool) as its first native call, and its trace
contains a flush — the whole-pool `Flush()` — exactly when the memory type
lacks `VK_MEMORY_PROPERTY_HOST_COHERENT_BIT`. -/
theorem memoryPool_overwrite_copy_and_flush
    (pool : MemoryPool) (mapFn : Nat → Nat) (bytes : List UInt8) :
    (pool.Size < bytes.length → pool.Overwrite mapFn bytes = .error .assertFailed) ∧
    (∀ p2 calls, pool.Overwrite mapFn bytes = .ok (p2, calls) →
      ∃ addr n props,
        pool.GetMappedAddress mapFn = .ok (addr, p2, n) ∧
        p2.Properties = .ok props ∧
        calls.head? = some (.memcpy addr bytes) ∧
        (containsFlush calls = true ↔
          props.land VK_MEMORY_PROPERTY_HOST_COHERENT_BIT = 0) ∧
        (props.land VK_MEMORY_PROPERTY_HOST_COHERENT_BIT = 0 →
          NativeCall.flush p2.mMemory 0 wholeSize ∈ calls)) := by
  constructor
  · intro hlt
    rw [MemoryPool.Overwrite, if_neg (by omega)]
  · intro p2 calls h
    rw [MemoryPool.Overwrite] at h
    by_cases hlen : bytes.length ≤ pool.Size
    · rw [if_pos hlen] at h
      cases hg : pool.GetMappedAddress mapFn with
      | error e => rw [hg] at h; exact absurd h (by simp)
      | ok res =>
        obtain ⟨addr, pool2, k⟩ := res
        rw [hg] at h
        cases hp : pool2.Properties with
        | error e => simp only [hp] at h; exact absurd h (by simp)
        | ok props =>
          simp only [hp] at h
          by_cases hcoh : props.land VK_MEMORY_PROPERTY_HOST_COHERENT_BIT = 0
          · rw [if_pos hcoh] at h
            cases hf : pool2.Flush with
            | error e => rw [hf] at h; exact absurd h (by simp)
            | ok f =>
              rw [hf] at h
              obtain ⟨hpool, hcalls⟩ : pool2 = p2 ∧
                  [NativeCall.memcpy addr bytes, f] = calls := by simpa using h
              subst hpool; subst hcalls
              have hfval : f = NativeCall.flush pool2.mMemory 0 wholeSize := by
                cases hd : pool2.mDevice with
                | none => rw [MemoryPool.Flush, hd] at hf; exact absurd hf (by simp)
                | some dev =>
                  rw [MemoryPool.Flush, hd] at hf
                  simpa using hf.symm
              subst hfval
              exact ⟨addr, k, props, rfl, hp, rfl,
                ⟨fun _ => hcoh, fun _ => by simp [containsFlush]⟩,
                fun _ => by simp⟩
          · rw [if_neg hcoh] at h
            obtain ⟨hpool, hcalls⟩ : pool2 = p2 ∧
                [NativeCall.memcpy addr bytes] = calls := by simpa using h
            subst hpool; subst hcalls
            exact ⟨addr, k, props, rfl, hp, rfl,
              ⟨fun hflush => by simp [containsFlush] at hflush,
               fun hc => absurd hc hcoh⟩,
              fun hc => absurd hc hcoh⟩
    · rw [if_neg hlen] at h
      exact absurd h (by simp)

/-- Witness for C8: overwriting the non-coherent 256-byte pool with 64 bytes of
`0xAB` copies to the mapped base 4096 and flushes the whole pool. -/
theorem memoryPool_overwrite_copy_and_flush_witness :
    ∃ addr n props,
      nonCoherentPool.GetMappedAddress testMap = .ok (addr, mappedNonCoherentPool, n) ∧
      mappedNonCoherentPool.Properties = .ok props ∧
      ([NativeCall.memcpy 4096 testBytes64,
        NativeCall.flush mappedNonCoherentPool.mMemory 0 wholeSize] : List NativeCall).head?
          = some (.memcpy addr testBytes64) ∧
      (containsFlush [NativeCall.memcpy 4096 testBytes64,
        NativeCall.flush mappedNonCoherentPool.mMemory 0 wholeSize] = true ↔
          props.land VK_MEMORY_PROPERTY_HOST_COHERENT_BIT = 0) ∧
      (props.land VK_MEMORY_PROPERTY_HOST_COHERENT_BIT = 0 →
        NativeCall.flush mappedNonCoherentPool.mMemory 0 wholeSize ∈
          [NativeCall.memcpy 4096 testBytes64,
           NativeCall.flush mappedNonCoherentPool.mMemory 0 wholeSize]) :=
  (memoryPool_overwrite_copy_and_flush nonCoherentPool testMap testBytes64).2
    mappedNonCoherentPool
    [NativeCall.memcpy 4096 testBytes64,
     NativeCall.flush mappedNonCoherentPool.mMemory 0 wholeSize] (by rfl)

/-- C9. `Allocation::Overwrite(bytes)` fails fast (assertion) whenever
`bytes.length` exceeds the allocation's `Size()`; for lengths within bounds a
successful call issues exactly one native call: the copy of the bytes to the
pool's mapped base plus the allocation's offset. -/
theorem allocation_overwrite_bounds
    (a : Allocation) (mapFn : Nat → Nat) (bytes : List UInt8) :
    (a.Size < bytes.length → a.Overwrite mapFn bytes = .error .assertFailed) ∧
    (∀ a2 calls, a.Overwrite mapFn bytes = .ok (a2, calls) →
      ∃ pool base pool2 n,
        a.mRawAllocation = some pool ∧
        pool.GetMappedAddress mapFn = .ok (base, pool2, n) ∧
        calls = [.memcpy (base + a.Offset) bytes]) := by
  constructor
  · intro hlt
    rw [Allocation.Overwrite, if_neg (by omega)]
  · intro a2 calls h
    rw [Allocation.Overwrite] at h
    by_cases hlen : bytes.length ≤ a.Size
    · rw [if_pos hlen] at h
      cases hr : a.mRawAllocation with
      | none =>
        simp only [Allocation.GetMappedAddress, hr] at h
        exact absurd h (by simp)
      | some pool =>
        cases hg : pool.GetMappedAddress mapFn with
        | error e =>
          simp only [Allocation.GetMappedAddress, hr, hg] at h
          exact absurd h (by simp)
        | ok res =>
          obtain ⟨base, pool2, k⟩ := res
          simp only [Allocation.GetMappedAddress, hr, hg, Except.ok.injEq,
            Prod.mk.injEq] at h
          obtain ⟨ha2, hcalls⟩ := h
          subst hcalls
          exact ⟨pool, base, pool2, k, rfl, hg, rfl⟩
    · rw [if_neg hlen] at h
      exact absurd h (by simp)

/-- Witness for C9: a 64-byte view at offset 16 of the non-coherent pool,
overwritten with 64 bytes, copies to 4096 + 16. -/
theorem allocation_overwrite_bounds_witness :
    ∃ pool base pool2 n,
      (nonCoherentPool.AllocateView 16 64).mRawAllocation = some pool ∧
      pool.GetMappedAddress testMap = .ok (base, pool2, n) ∧
      ([NativeCall.memcpy (4096 + 16) testBytes64] : List NativeCall)
        = [.memcpy (base + (nonCoherentPool.AllocateView 16 64).Offset) testBytes64] :=
  (allocation_overwrite_bounds (nonCoherentPool.AllocateView 16 64) testMap testBytes64).2
    (Allocation.ctor mappedNonCoherentPool 16 64)
    [NativeCall.memcpy (4096 + 16) testBytes64] (by rfl)

/-- C2 counterexample: the end-to-end scenario on a non-coherent pool — a
256-byte host-visible pool whose memory type lacks the host-coherent property,
a view at offset 0 of size 64, 64 bytes of `0xAB` written through
`Allocation::Overwrite` — produces a native-call trace consisting of the copy
only: it contains no flush whatsoever, in particular no `Flush` with offset 0
and size 64. -/
theorem allocation_overwrite_nonCoherent_no_flush_counterexample :
    nonCoherentPool.Properties = .ok VK_MEMORY_PROPERTY_HOST_VISIBLE_BIT ∧
    VK_MEMORY_PROPERTY_HOST_VISIBLE_BIT.land VK_MEMORY_PROPERTY_HOST_COHERENT_BIT = 0 ∧
    (nonCoherentPool.AllocateView 0 64).Overwrite testMap testBytes64
      = .ok (Allocation.ctor mappedNonCoherentPool 0 64,
             [.memcpy 4096 testBytes64]) ∧
    containsFlush [NativeCall.memcpy 4096 testBytes64] = false :=
  ⟨rfl, rfl, rfl, rfl⟩

/-- C2 amended: for a host-coherent pool `Allocation::Overwrite` indeed makes
no flush call — but the same holds for a non-coherent pool:
`Allocation::Overwrite` never triggers any flush; its native-call trace is
flush-free for every allocation, map oracle and byte buffer. Publishing writes
on non-coherent memory requires a separate explicit flush (only
`MemoryPool::Overwrite` flushes automatically, and it does so iff the pool
lacks the coherent property). -/
theorem allocation_overwrite_never_flushes
    (a : Allocation) (mapFn : Nat → Nat) (bytes : List UInt8)
    (a2 : Allocation) (calls : List NativeCall)
    (h : a.Overwrite mapFn bytes = .ok (a2, calls)) :
    containsFlush calls = false := by
  rw [Allocation.Overwrite] at h
  by_cases hlen : bytes.length ≤ a.Size
  · rw [if_pos hlen] at h
    cases hg : a.GetMappedAddress mapFn with
    | error e => rw [hg] at h; exact absurd h (by simp)
    | ok res =>
      obtain ⟨addr, a3, k⟩ := res
      rw [hg] at h
      obtain ⟨ha2, hcalls⟩ : a3 = a2 ∧ [NativeCall.memcpy addr bytes] = calls := by
        simpa using h
      subst hcalls
      rfl
  · rw [if_neg hlen] at h
    exact absurd h (by simp)

/-- Witness for C2's amended statement: the coherent-pool run of the same
scenario, whose trace is the copy only. -/
theorem allocation_overwrite_never_flushes_witness :
    containsFlush [NativeCall.memcpy 4096 testBytes64] = false :=
  allocation_overwrite_never_flushes (coherentPool.AllocateView 0 64) testMap testBytes64
    (Allocation.ctor mappedCoherentPool 0 64)
    [NativeCall.memcpy 4096 testBytes64] (by rfl)

end Vulkan
